import Mathlib

/-!
Shallow embedding of the Krishimitra backend (`backend/main.py`), a Flask app
with three endpoints: `/chat`, `/transcribe` and `/detect_pest`.  Each handler
is modelled as a pure function from the request together with an environment
describing the outcomes of the external calls (PIL image decoding, the Groq
and Gemini provider calls, Python's `json.loads`) to an HTTP outcome: a status
code, a JSON body, and an ordered trace of the filesystem / logging / provider
side effects the handler performs.
-/

namespace Krishimitra

/-- JSON values, the result type of Python's `json.loads`.  Numbers are
modelled as integers; none of the fields the backend manipulates are numeric,
so this loses nothing relevant. -/
inductive Json where
  | null : Json
  | bool (b : Bool) : Json
  | num (n : Int) : Json
  | str (s : String) : Json
  | arr (xs : List Json) : Json
  | obj (fields : List (String × Json)) : Json

/-- Whitespace as stripped by Python's `str.strip()` (ASCII subset; the
backend's guards only ever meet ASCII whitespace). -/
def isPyWhitespace (c : Char) : Bool :=
  c = ' ' || c = '\t' || c = '\n' || c = '\x0d' || c = '\x0b' || c = '\x0c'

/-- Python's `s.strip()`: drop leading and trailing whitespace. -/
def pyStrip (s : String) : String :=
  String.mk (((s.toList.dropWhile isPyWhitespace).reverse.dropWhile
    isPyWhitespace).reverse)

/-- Python's `text += part` loop over the model's result parts (main.py lines
167-171): left-to-right concatenation starting from the empty string. -/
def concatParts (parts : List String) : String :=
  parts.foldl (fun a b => a ++ b) ""

/-- Python's `filename.replace(' ', '_')` (main.py line 128). -/
def spaceToUnderscore (s : String) : String :=
  String.mk (s.toList.map (fun c => if c = ' ' then '_' else c))

/-- Side effects a handler can perform, in chronological order. -/
inductive Event where
  | archiveWrite (path : String) (bytes : List Nat) : Event
  | tempCreate (path : String) : Event
  | tempRemove (path : String) : Event
  | chatCall : Event
  | transcribeCall : Event
  | modelCall : Event
  | logAppend (file tag message : String) : Event
deriving DecidableEq

/-- `log_event(filename, message, file)` from main.py line 28 (the wall-clock
timestamp prefix of the log line is not modelled). -/
def log_event (filename message file : String) : Event :=
  Event.logAppend file filename message

/-- `log_chat_message(user_message, status)` from main.py line 34. -/
def log_chat_message (user_message status : String) : Event :=
  log_event "Chat" (user_message ++ " | Status: " ++ status) "chat_logs.txt"

/-- `log_pest_upload(filename, status)` from main.py line 37. -/
def log_pest_upload (filename status : String) : Event :=
  log_event "Pest" (filename ++ " | Status: " ++ status) "pest_uploads.txt"

/-- Response bodies the backend produces via `jsonify`. -/
inductive Body where
  | errorMsg (s : String) : Body
  | replyMsg (s : String) : Body
  | textMsg (s : String) : Body
  | pestJson (j : Json) : Body

/-- Result of one handler invocation: HTTP status, JSON body, effect trace. -/
structure Outcome where
  status : Nat
  body : Body
  trace : List Event

/-- Archive-directory writes recorded in a trace. -/
def archivedFiles (tr : List Event) : List (String × List Nat) :=
  tr.filterMap fun e =>
    match e with
    | Event.archiveWrite p b => some (p, b)
    | _ => none

/-- Temporary files still on disk once the handler returns: created within
the request and never removed. -/
def tempFilesLeft (tr : List Event) : List String :=
  (tr.filterMap fun e =>
    match e with
    | Event.tempCreate p => some p
    | _ => none).filter
      (fun p => decide (Event.tempRemove p ∉ tr))

/-- Whether the Gemini vision model was invoked. -/
def modelInvoked (tr : List Event) : Bool :=
  tr.any fun e =>
    match e with
    | Event.modelCall => true
    | _ => false

/-- Whether the Groq chat-completion client was invoked. -/
def chatClientInvoked (tr : List Event) : Bool :=
  tr.any fun e =>
    match e with
    | Event.chatCall => true
    | _ => false

/-- The `/chat` request: whether `request.get_json(force=True)` succeeds, and
the `message` field (absent or JSON null is `none`). -/
structure ChatReq where
  jsonOk : Bool
  message : Option String

/-- External outcomes for `/chat`: the text of the exception raised by
`get_json` when it fails, whether the Groq completion call raises, its
exception text, and the reply content on success. -/
structure ChatEnv where
  jsonErrMsg : String
  clientRaises : Bool
  clientErrMsg : String
  reply : String

/-- The `chat` handler, main.py lines 47-81. -/
def chat (req : ChatReq) (env : ChatEnv) : Outcome :=
  if req.jsonOk = false then
    ⟨500, Body.replyMsg "Error processing your message.",
      [log_chat_message env.jsonErrMsg "Chat generation failed"]⟩
  else if pyStrip (req.message.getD "") = "" then
    ⟨400, Body.replyMsg "Please enter a valid message.", []⟩
  else if env.clientRaises = true then
    ⟨500, Body.replyMsg "Error processing your message.",
      [Event.chatCall, log_chat_message env.clientErrMsg "Chat generation failed"]⟩
  else
    ⟨200, Body.replyMsg env.reply,
      [Event.chatCall,
       log_chat_message (pyStrip (req.message.getD "")) "Response OK"]⟩

/-- The `/transcribe` request: whether the multipart field `file` is present. -/
structure TranscribeReq where
  hasFile : Bool

/-- External outcomes for `/transcribe`: the name `NamedTemporaryFile` picks,
whether the Whisper transcription call raises, and `result.text` on success. -/
structure TranscribeEnv where
  tmpName : String
  transcribeRaises : Bool
  transcribedText : String

/-- The `transcribe_audio` handler, main.py lines 83-106.  The temporary file
is created with `delete=False`; `os.remove` runs only after a successful
provider call, so when the call raises, the `except` branch answers 500
without removing the file. -/
def transcribe_audio (req : TranscribeReq) (env : TranscribeEnv) : Outcome :=
  if req.hasFile = false then
    ⟨400, Body.errorMsg "No file uploaded", []⟩
  else if env.transcribeRaises = true then
    ⟨500, Body.errorMsg "Transcription failed",
      [Event.tempCreate env.tmpName, Event.transcribeCall]⟩
  else
    ⟨200, Body.textMsg (pyStrip env.transcribedText),
      [Event.tempCreate env.tmpName, Event.transcribeCall,
       Event.tempRemove env.tmpName]⟩

/-- The `/detect_pest` request: presence of the `file` field, its filename
(`""` models a falsy filename), and the uploaded bytes. -/
structure PestRequest where
  hasFile : Bool
  filename : String
  imageBytes : List Nat

/-- External outcomes for `/detect_pest`: whether `Image.open` + `verify`
succeeds (`false` models `UnidentifiedImageError`), the
`datetime.now().strftime("%Y%m%d_%H%M%S")` timestamp, the temporary file
name, whether `model.generate_content` raises and with what message, the
text fragments of the result parts in returned order, and `json.loads`
(`none` models `json.JSONDecodeError`). -/
structure DetectEnv where
  imageDecodes : Bool
  timestamp : String
  tmpName : String
  modelRaises : Bool
  modelErrMsg : String
  modelParts : List String
  jsonParse : String → Option Json

/-- Directory constant `UPLOADS_DIR` from main.py line 40. -/
def UPLOADS_DIR : String := "uploaded_images"

/-- The archive key built at main.py lines 127-128:
`os.path.join(UPLOADS_DIR, f"{timestamp}_{filename.replace(' ', '_')}")`. -/
def savePathFor (timestamp filename : String) : String :=
  UPLOADS_DIR ++ "/" ++ timestamp ++ "_" ++ spaceToUnderscore filename

/-- The fallback record built at main.py lines 180-188.  Python's
`text.strip() or "Unable to parse model output."` yields the default exactly
when the stripped text is empty. -/
def fallbackRecord (text : String) : Json :=
  Json.obj
    [("pest_name", Json.str "Unknown Pest"),
     ("confidence", Json.str "N/A"),
     ("description", Json.str
        (if pyStrip text = "" then "Unable to parse model output."
         else pyStrip text)),
     ("severity", Json.str "Unknown"),
     ("organic_treatments", Json.arr []),
     ("chemical_treatments", Json.arr []),
     ("prevention_tips", Json.arr [])]

/-- The `detect_pest` handler, main.py lines 109-196.  Branches in source
order: missing field → 400; falsy filename → 400; `UnidentifiedImageError` →
400; archive write, temp-file write, model call; a raising model call hits
the outer `except` (temp file not yet removed) → 500; `os.remove`; empty
concatenated text raises `ValueError` caught by the outer `except` → 500;
`json.loads` success → the parsed value verbatim, 200; `JSONDecodeError` →
fallback record, 200. -/
def detect_pest (req : PestRequest) (env : DetectEnv) : Outcome :=
  if req.hasFile = false then
    ⟨400, Body.errorMsg "No file uploaded", []⟩
  else if req.filename = "" then
    ⟨400, Body.errorMsg "No file selected", []⟩
  else if env.imageDecodes = false then
    ⟨400, Body.errorMsg "Invalid or corrupted image file", []⟩
  else if env.modelRaises = true then
    ⟨500, Body.errorMsg "Pest detection failed",
      [Event.archiveWrite (savePathFor env.timestamp req.filename) req.imageBytes,
       Event.tempCreate env.tmpName, Event.modelCall,
       log_pest_upload req.filename ("Error: " ++ env.modelErrMsg)]⟩
  else if pyStrip (concatParts env.modelParts) = "" then
    ⟨500, Body.errorMsg "Pest detection failed",
      [Event.archiveWrite (savePathFor env.timestamp req.filename) req.imageBytes,
       Event.tempCreate env.tmpName, Event.modelCall,
       Event.tempRemove env.tmpName,
       log_pest_upload req.filename "Error: Empty response from model"]⟩
  else
    match env.jsonParse (concatParts env.modelParts) with
    | some j =>
      ⟨200, Body.pestJson j,
        [Event.archiveWrite (savePathFor env.timestamp req.filename) req.imageBytes,
         Event.tempCreate env.tmpName, Event.modelCall,
         Event.tempRemove env.tmpName,
         log_pest_upload req.filename "Detection OK"]⟩
    | none =>
      ⟨200, Body.pestJson (fallbackRecord (concatParts env.modelParts)),
        [Event.archiveWrite (savePathFor env.timestamp req.filename) req.imageBytes,
         Event.tempCreate env.tmpName, Event.modelCall,
         Event.tempRemove env.tmpName,
         log_pest_upload req.filename "JSON parse fallback"]⟩

/-- Whether a JSON value is a string. -/
def Json.isStr : Json → Bool
  | Json.str _ => true
  | _ => false

/-- Whether a JSON value is an array of strings. -/
def Json.isStringList : Json → Bool
  | Json.arr xs => xs.all Json.isStr
  | _ => false

/-- Field lookup in a JSON object (first binding wins), `none` otherwise. -/
def Json.getField : Json → String → Option Json
  | Json.obj fs, k => (fs.find? (fun p => p.1 == k)).map Prod.snd
  | _, _ => none

/-- Modelled from the spec: the `PestDetectionResult` shape of the spec's
data model (section 3) — all seven fields present, `pest_name` and
`description` strings, `confidence` in its enum, `severity` in its enum, and
the three treatment/tip fields arrays of strings.  The source performs no
such check; this definition exists to compare the spec's claimed shape
guarantees with what `detect_pest` actually returns. -/
def matchesPestShape (j : Json) : Bool :=
  (match j.getField "pest_name" with
   | some v => v.isStr
   | none => false) &&
  (match j.getField "confidence" with
   | some (Json.str s) => ["High", "Medium", "Low", "N/A"].contains s
   | _ => false) &&
  (match j.getField "description" with
   | some v => v.isStr
   | none => false) &&
  (match j.getField "severity" with
   | some (Json.str s) => ["Mild", "Moderate", "Severe", "Unknown"].contains s
   | _ => false) &&
  (match j.getField "organic_treatments" with
   | some v => v.isStringList
   | none => false) &&
  (match j.getField "chemical_treatments" with
   | some v => v.isStringList
   | none => false) &&
  (match j.getField "prevention_tips" with
   | some v => v.isStringList
   | none => false)

/-- The fallback record always matches the full seven-field shape, whatever
the raw text was. -/
theorem matchesPestShape_fallbackRecord (text : String) :
    matchesPestShape (fallbackRecord text) = true := by
  by_cases h : pyStrip text = "" <;>
    simp [matchesPestShape, fallbackRecord, Json.getField, Json.isStr,
      Json.isStringList, List.find?, h]

/-- C1: on a decodable image, when the model output is non-whitespace but
`json.loads` raises `JSONDecodeError`, `/detect_pest` answers 200 with
exactly the canonical fallback record — `pest_name="Unknown Pest"`,
`confidence="N/A"`, description = the stripped raw text,
`severity="Unknown"`, three empty lists — and audit-logs
"JSON parse fallback". -/
theorem detect_pest_parse_fallback (req : PestRequest) (env : DetectEnv)
    (hfile : req.hasFile = true) (hname : req.filename ≠ "")
    (hdec : env.imageDecodes = true) (hok : env.modelRaises = false)
    (hne : pyStrip (concatParts env.modelParts) ≠ "")
    (hparse : env.jsonParse (concatParts env.modelParts) = none) :
    (detect_pest req env).status = 200 ∧
    (detect_pest req env).body = Body.pestJson (Json.obj
      [("pest_name", Json.str "Unknown Pest"),
       ("confidence", Json.str "N/A"),
       ("description", Json.str (pyStrip (concatParts env.modelParts))),
       ("severity", Json.str "Unknown"),
       ("organic_treatments", Json.arr []),
       ("chemical_treatments", Json.arr []),
       ("prevention_tips", Json.arr [])]) ∧
    log_pest_upload req.filename "JSON parse fallback"
      ∈ (detect_pest req env).trace := by
  simp [detect_pest, hfile, hname, hdec, hok, hne, hparse, fallbackRecord]

def c1req : PestRequest := ⟨true, "leaf.jpg", [137, 80, 78, 71]⟩

def c1env : DetectEnv :=
  ⟨true, "20250101_120000", "/tmp/c1.jpg", false, "", ["not json at all"],
   fun _ => none⟩

/-- Witness for C1 at a concrete request whose model output is
`not json at all`. -/
theorem detect_pest_parse_fallback_witness :
    (detect_pest c1req c1env).status = 200 ∧
    (detect_pest c1req c1env).body = Body.pestJson (Json.obj
      [("pest_name", Json.str "Unknown Pest"),
       ("confidence", Json.str "N/A"),
       ("description", Json.str (pyStrip (concatParts c1env.modelParts))),
       ("severity", Json.str "Unknown"),
       ("organic_treatments", Json.arr []),
       ("chemical_treatments", Json.arr []),
       ("prevention_tips", Json.arr [])]) ∧
    log_pest_upload c1req.filename "JSON parse fallback"
      ∈ (detect_pest c1req c1env).trace :=
  detect_pest_parse_fallback c1req c1env rfl (by decide) rfl rfl
    (by decide) rfl

/-- C3: on a decodable image, when the model output parses as JSON matching
the `PestDetectionResult` shape, `/detect_pest` returns the parsed value
unchanged with 200 and audit-logs "Detection OK". -/
theorem detect_pest_valid_json (req : PestRequest) (env : DetectEnv)
    (hfile : req.hasFile = true) (hname : req.filename ≠ "")
    (hdec : env.imageDecodes = true) (hok : env.modelRaises = false)
    (hne : pyStrip (concatParts env.modelParts) ≠ "")
    (j : Json) (hparse : env.jsonParse (concatParts env.modelParts) = some j)
    (_hshape : matchesPestShape j = true) :
    (detect_pest req env).status = 200 ∧
    (detect_pest req env).body = Body.pestJson j ∧
    log_pest_upload req.filename "Detection OK"
      ∈ (detect_pest req env).trace := by
  simp [detect_pest, hfile, hname, hdec, hok, hne, hparse]

def c3req : PestRequest := ⟨true, "crop.png", [137, 80]⟩

def c3text : String :=
  "\x7b\x22pest_name\x22: \x22Aphid\x22, \x22confidence\x22: \x22High\x22, \x22description\x22: \x22Green aphids on leaf\x22, \x22severity\x22: \x22Moderate\x22, \x22organic_treatments\x22: [\x22neem oil\x22], \x22chemical_treatments\x22: [], \x22prevention_tips\x22: []\x7d"

def c3json : Json :=
  Json.obj
    [("pest_name", Json.str "Aphid"),
     ("confidence", Json.str "High"),
     ("description", Json.str "Green aphids on leaf"),
     ("severity", Json.str "Moderate"),
     ("organic_treatments", Json.arr [Json.str "neem oil"]),
     ("chemical_treatments", Json.arr []),
     ("prevention_tips", Json.arr [])]

def c3env : DetectEnv :=
  ⟨true, "20250101_121500", "/tmp/c3.jpg", false, "", [c3text],
   fun s => if s = c3text then some c3json else none⟩

set_option maxRecDepth 8192 in
/-- Witness for C3 at a concrete request whose model output is a
shape-conforming JSON object. -/
theorem detect_pest_valid_json_witness :
    (detect_pest c3req c3env).status = 200 ∧
    (detect_pest c3req c3env).body = Body.pestJson c3json ∧
    log_pest_upload c3req.filename "Detection OK"
      ∈ (detect_pest c3req c3env).trace :=
  detect_pest_valid_json c3req c3env rfl (by decide) rfl rfl (by decide)
    c3json rfl (by decide)

/-- C4: on a decodable image, when the concatenated model text is empty or
whitespace-only, `/detect_pest` answers 500 with
`error = "Pest detection failed"` (so in particular not a fallback 200). -/
theorem detect_pest_empty_output (req : PestRequest) (env : DetectEnv)
    (hfile : req.hasFile = true) (hname : req.filename ≠ "")
    (hdec : env.imageDecodes = true) (hok : env.modelRaises = false)
    (hempty : pyStrip (concatParts env.modelParts) = "") :
    (detect_pest req env).status = 500 ∧
    (detect_pest req env).body = Body.errorMsg "Pest detection failed" := by
  simp [detect_pest, hfile, hname, hdec, hok, hempty]

def c4req : PestRequest := ⟨true, "pic.jpg", [1, 2]⟩

def c4env : DetectEnv :=
  ⟨true, "20250101_122000", "/tmp/c4.jpg", false, "", ["  ", "\n"],
   fun _ => none⟩

/-- Witness for C4 at a concrete request whose model parts are all
whitespace. -/
theorem detect_pest_empty_output_witness :
    (detect_pest c4req c4env).status = 500 ∧
    (detect_pest c4req c4env).body = Body.errorMsg "Pest detection failed" :=
  detect_pest_empty_output c4req c4env rfl (by decide) rfl rfl (by decide)

/-- C5: when the uploaded bytes are not a decodable image, `/detect_pest`
answers 400 with `error = "Invalid or corrupted image file"`, archives
nothing, and never invokes the vision model. -/
theorem detect_pest_invalid_image (req : PestRequest) (env : DetectEnv)
    (hfile : req.hasFile = true) (hname : req.filename ≠ "")
    (hdec : env.imageDecodes = false) :
    (detect_pest req env).status = 400 ∧
    (detect_pest req env).body = Body.errorMsg "Invalid or corrupted image file" ∧
    archivedFiles (detect_pest req env).trace = [] ∧
    modelInvoked (detect_pest req env).trace = false := by
  simp [detect_pest, hfile, hname, hdec, archivedFiles, modelInvoked]

def c5req : PestRequest := ⟨true, "garbage.bin", [0, 1, 2, 3]⟩

def c5env : DetectEnv :=
  ⟨false, "20250101_122500", "/tmp/c5.jpg", false, "", [], fun _ => none⟩

/-- Witness for C5 at a concrete request with undecodable bytes. -/
theorem detect_pest_invalid_image_witness :
    (detect_pest c5req c5env).status = 400 ∧
    (detect_pest c5req c5env).body = Body.errorMsg "Invalid or corrupted image file" ∧
    archivedFiles (detect_pest c5req c5env).trace = [] ∧
    modelInvoked (detect_pest c5req c5env).trace = false :=
  detect_pest_invalid_image c5req c5env rfl (by decide) rfl

def c2req : PestRequest := ⟨true, "leaf two.jpg", [255, 216]⟩

def c2text : String := "\x7b\x22pest_name\x22: \x22aphid\x22\x7d"

def c2json : Json := Json.obj [("pest_name", Json.str "aphid")]

def c2env : DetectEnv :=
  ⟨true, "20250101_130000", "/tmp/c2.jpg", false, "", [c2text],
   fun s => if s = c2text then some c2json else none⟩

/-- C2 counterexample: a model output that is syntactically valid JSON but
carries only one of the seven fields is returned verbatim with 200 — the
endpoint does not substitute the fallback record, so the 200 body lacks six
required fields. -/
theorem detect_pest_no_shape_check :
    (detect_pest c2req c2env).status = 200 ∧
    (detect_pest c2req c2env).body = Body.pestJson c2json ∧
    matchesPestShape c2json = false ∧
    Json.getField c2json "confidence" = none ∧
    (detect_pest c2req c2env).body
      ≠ Body.pestJson (fallbackRecord (concatParts c2env.modelParts)) := by
  refine ⟨rfl, rfl, by decide, rfl, ?_⟩
  intro h
  have hc := congrArg
    (fun b => match b with
      | Body.pestJson j => matchesPestShape j
      | _ => true) h
  exact absurd hc (by decide)

/-- C2 (amended): every 200 response from `/detect_pest` carries either the
`json.loads` value verbatim — whatever its shape, with no field validation —
or the canonical fallback record, which does have all seven fields; only a
`JSONDecodeError` triggers the fallback. -/
theorem detect_pest_200_body (req : PestRequest) (env : DetectEnv)
    (h200 : (detect_pest req env).status = 200) :
    (∃ j, env.jsonParse (concatParts env.modelParts) = some j ∧
      (detect_pest req env).body = Body.pestJson j) ∨
    (env.jsonParse (concatParts env.modelParts) = none ∧
      (detect_pest req env).body
        = Body.pestJson (fallbackRecord (concatParts env.modelParts)) ∧
      matchesPestShape (fallbackRecord (concatParts env.modelParts)) = true) := by
  unfold detect_pest at h200 ⊢
  split_ifs at h200 ⊢ <;> try simp_all
  rcases hp : env.jsonParse (concatParts env.modelParts) with _ | j
  · exact Or.inr ⟨rfl, by simp [hp], matchesPestShape_fallbackRecord _⟩
  · exact Or.inl ⟨j, rfl, by simp [hp]⟩

def c2wreq : PestRequest := ⟨true, "w2.jpg", [9]⟩

def c2wenv : DetectEnv :=
  ⟨true, "20250101_130500", "/tmp/c2w.jpg", false, "", ["still not json"],
   fun _ => none⟩

/-- Witness for the amended C2 at a concrete 200 response. -/
theorem detect_pest_200_body_witness :
    (∃ j, c2wenv.jsonParse (concatParts c2wenv.modelParts) = some j ∧
      (detect_pest c2wreq c2wenv).body = Body.pestJson j) ∨
    (c2wenv.jsonParse (concatParts c2wenv.modelParts) = none ∧
      (detect_pest c2wreq c2wenv).body
        = Body.pestJson (fallbackRecord (concatParts c2wenv.modelParts)) ∧
      matchesPestShape (fallbackRecord (concatParts c2wenv.modelParts)) = true) :=
  detect_pest_200_body c2wreq c2wenv rfl

def c6req : PestRequest := ⟨true, "c6.jpg", [0]⟩

def c6env : DetectEnv :=
  ⟨true, "20250102_000000", "/tmp/c6.jpg", true, "DeadlineExceeded", [],
   fun _ => none⟩

/-- C6 counterexample: when the vision-model call raises, `/detect_pest`
answers through the outer `except` without ever reaching `os.remove`, so the
temporary file is still on the filesystem after the 500 response. -/
theorem detect_pest_temp_leak :
    (detect_pest c6req c6env).status = 500 ∧
    tempFilesLeft (detect_pest c6req c6env).trace = ["/tmp/c6.jpg"] := by
  constructor
  · rfl
  · decide

/-- A trace in which every created temporary file is also removed leaves no
temporary file behind. -/
theorem tempFilesLeft_eq_nil (tr : List Event)
    (h : ∀ p, Event.tempCreate p ∈ tr → Event.tempRemove p ∈ tr) :
    tempFilesLeft tr = [] := by
  unfold tempFilesLeft
  rw [List.filter_eq_nil_iff]
  intro p hp
  rw [List.mem_filterMap] at hp
  obtain ⟨e, he, hm⟩ := hp
  cases e with
  | tempCreate q =>
    injection hm with hq
    subst hq
    simp [h q he]
  | archiveWrite a b => exact Option.noConfusion hm
  | tempRemove a => exact Option.noConfusion hm
  | chatCall => exact Option.noConfusion hm
  | transcribeCall => exact Option.noConfusion hm
  | modelCall => exact Option.noConfusion hm
  | logAppend a b c => exact Option.noConfusion hm

/-- C6 (amended): on every path where the provider call returns — success,
parse-fallback, and `/detect_pest`'s empty-output 500 — the temporary file is
removed before the response; only a raising provider call leaves it behind. -/
theorem temp_files_removed_when_provider_returns
    (treq : TranscribeReq) (tenv : TranscribeEnv)
    (req : PestRequest) (env : DetectEnv)
    (ht : tenv.transcribeRaises = false)
    (hm : env.modelRaises = false) :
    tempFilesLeft (transcribe_audio treq tenv).trace = [] ∧
    tempFilesLeft (detect_pest req env).trace = [] := by
  constructor
  · apply tempFilesLeft_eq_nil
    intro p hp
    unfold transcribe_audio at hp ⊢
    split_ifs at hp ⊢ <;> simp_all
  · apply tempFilesLeft_eq_nil
    intro p hp
    rcases hpj : env.jsonParse (concatParts env.modelParts) with _ | j <;>
      unfold detect_pest at hp ⊢ <;>
        split_ifs at hp ⊢ <;>
          simp_all [log_pest_upload, log_event]

def c6wtreq : TranscribeReq := ⟨true⟩

def c6wtenv : TranscribeEnv := ⟨"/tmp/c6w.webm", false, " hello "⟩

def c6wreq : PestRequest := ⟨true, "c6w.jpg", [3]⟩

def c6wenv : DetectEnv :=
  ⟨true, "20250102_000100", "/tmp/c6w.jpg", false, "", ["x"], fun _ => none⟩

/-- Witness for the amended C6 at concrete non-raising runs. -/
theorem temp_files_removed_when_provider_returns_witness :
    tempFilesLeft (transcribe_audio c6wtreq c6wtenv).trace = [] ∧
    tempFilesLeft (detect_pest c6wreq c6wenv).trace = [] :=
  temp_files_removed_when_provider_returns c6wtreq c6wtenv c6wreq c6wenv
    rfl rfl

/-- C7: when the trimmed `message` is empty, `/chat` answers 400 with
`reply = "Please enter a valid message."` and the completion client is never
invoked. -/
theorem chat_empty_message (req : ChatReq) (env : ChatEnv)
    (hjson : req.jsonOk = true)
    (hempty : pyStrip (req.message.getD "") = "") :
    (chat req env).status = 400 ∧
    (chat req env).body = Body.replyMsg "Please enter a valid message." ∧
    chatClientInvoked (chat req env).trace = false := by
  simp [chat, hjson, hempty, chatClientInvoked]

def c7req : ChatReq := ⟨true, some "   \n\t "⟩

def c7env : ChatEnv := ⟨"", false, "", "hello"⟩

/-- Witness for C7 at a concrete whitespace-only message. -/
theorem chat_empty_message_witness :
    (chat c7req c7env).status = 400 ∧
    (chat c7req c7env).body = Body.replyMsg "Please enter a valid message." ∧
    chatClientInvoked (chat c7req c7env).trace = false :=
  chat_empty_message c7req c7env rfl (by decide)

/-- C8: a raising provider call makes each endpoint answer 500 with its
fixed, exception-independent body — the conclusions are constants that do
not mention the exception texts carried by the environments. -/
theorem provider_errors_map_to_fixed_500 :
    (∀ (req : ChatReq) (env : ChatEnv), req.jsonOk = true →
      pyStrip (req.message.getD "") ≠ "" → env.clientRaises = true →
      (chat req env).status = 500 ∧
      (chat req env).body = Body.replyMsg "Error processing your message.") ∧
    (∀ (req : TranscribeReq) (env : TranscribeEnv), req.hasFile = true →
      env.transcribeRaises = true →
      (transcribe_audio req env).status = 500 ∧
      (transcribe_audio req env).body = Body.errorMsg "Transcription failed") ∧
    (∀ (req : PestRequest) (env : DetectEnv), req.hasFile = true →
      req.filename ≠ "" → env.imageDecodes = true → env.modelRaises = true →
      (detect_pest req env).status = 500 ∧
      (detect_pest req env).body = Body.errorMsg "Pest detection failed") := by
  refine ⟨fun req env h1 h2 h3 => ?_, fun req env h1 h2 => ?_,
    fun req env h1 h2 h3 h4 => ?_⟩
  · simp [chat, h1, h2, h3]
  · simp [transcribe_audio, h1, h2]
  · simp [detect_pest, h1, h2, h3, h4]

def c8creq : ChatReq := ⟨true, some "how to treat aphids"⟩

def c8cenv : ChatEnv := ⟨"", true, "ConnectionError: provider down", ""⟩

def c8treq : TranscribeReq := ⟨true⟩

def c8tenv : TranscribeEnv := ⟨"/tmp/c8.webm", true, ""⟩

def c8preq : PestRequest := ⟨true, "c8.jpg", [4]⟩

def c8penv : DetectEnv :=
  ⟨true, "20250103_000000", "/tmp/c8.jpg", true, "quota exceeded", [],
   fun _ => none⟩

/-- Witness for C8 at concrete raising provider calls on all three
endpoints. -/
theorem provider_errors_map_to_fixed_500_witness :
    ((chat c8creq c8cenv).status = 500 ∧
      (chat c8creq c8cenv).body = Body.replyMsg "Error processing your message.") ∧
    ((transcribe_audio c8treq c8tenv).status = 500 ∧
      (transcribe_audio c8treq c8tenv).body = Body.errorMsg "Transcription failed") ∧
    ((detect_pest c8preq c8penv).status = 500 ∧
      (detect_pest c8preq c8penv).body = Body.errorMsg "Pest detection failed") :=
  ⟨provider_errors_map_to_fixed_500.1 c8creq c8cenv rfl (by decide) rfl,
   provider_errors_map_to_fixed_500.2.1 c8treq c8tenv rfl rfl,
   provider_errors_map_to_fixed_500.2.2 c8preq c8penv rfl (by decide) rfl rfl⟩

/-- C9: on a decodable image the trace starts with the archive write of the
raw uploaded bytes under `uploaded_images/{timestamp}_{filename with spaces
replaced by underscores}`, then the temp-file creation, and only then the
vision-model call — on every continuation of the request. -/
theorem detect_pest_archives_before_model (req : PestRequest)
    (env : DetectEnv) (hfile : req.hasFile = true)
    (hname : req.filename ≠ "") (hdec : env.imageDecodes = true) :
    ∃ rest, (detect_pest req env).trace =
      Event.archiveWrite
        (UPLOADS_DIR ++ "/" ++ env.timestamp ++ "_" ++ spaceToUnderscore req.filename)
        req.imageBytes ::
      Event.tempCreate env.tmpName :: Event.modelCall :: rest := by
  unfold detect_pest savePathFor
  split_ifs <;> try simp_all
  rcases env.jsonParse (concatParts env.modelParts) with _ | j
  · exact ⟨_, rfl⟩
  · exact ⟨_, rfl⟩

def c9req : PestRequest := ⟨true, "my leaf photo.jpg", [9, 8, 7]⟩

def c9env : DetectEnv :=
  ⟨true, "20250104_101010", "/tmp/c9.jpg", false, "", ["zzz"], fun _ => none⟩

/-- Witness for C9 at a concrete request whose filename contains spaces. -/
theorem detect_pest_archives_before_model_witness :
    ∃ rest, (detect_pest c9req c9env).trace =
      Event.archiveWrite
        (UPLOADS_DIR ++ "/" ++ c9env.timestamp ++ "_" ++ spaceToUnderscore c9req.filename)
        c9req.imageBytes ::
      Event.tempCreate c9env.tmpName :: Event.modelCall :: rest :=
  detect_pest_archives_before_model c9req c9env rfl (by decide) rfl

/-- C10: whenever the fallback path is reached, the fallback description is
the stripped raw text and is non-empty; the fixed default string is
unreachable because a whitespace-only output already takes the empty-output
500 path before `json.loads` is attempted. -/
theorem fallback_description_is_stripped_text (req : PestRequest)
    (env : DetectEnv) (hfile : req.hasFile = true)
    (hname : req.filename ≠ "") (hdec : env.imageDecodes = true)
    (hok : env.modelRaises = false)
    (hparse : env.jsonParse (concatParts env.modelParts) = none) :
    ((detect_pest req env).status = 200 →
      (detect_pest req env).body
        = Body.pestJson (fallbackRecord (concatParts env.modelParts)) ∧
      Json.getField (fallbackRecord (concatParts env.modelParts)) "description"
        = some (Json.str (pyStrip (concatParts env.modelParts))) ∧
      pyStrip (concatParts env.modelParts) ≠ "") ∧
    (pyStrip (concatParts env.modelParts) = "" →
      (detect_pest req env).status = 500) := by
  by_cases hne : pyStrip (concatParts env.modelParts) = ""
  · refine ⟨fun h200 => absurd h200 ?_, fun _ => ?_⟩ <;>
      simp [detect_pest, hfile, hname, hdec, hok, hne]
  · refine ⟨fun _ => ⟨?_, ?_, hne⟩, fun h => absurd h hne⟩
    · simp [detect_pest, hfile, hname, hdec, hok, hne, hparse]
    · simp [fallbackRecord, Json.getField, List.find?, hne]

def c10req : PestRequest := ⟨true, "c10.jpg", [5, 6]⟩

def c10env : DetectEnv :=
  ⟨true, "20250105_090000", "/tmp/c10.jpg", false, "", ["  broken output  "],
   fun _ => none⟩

/-- Witness for C10 at a concrete fallback response. -/
theorem fallback_description_is_stripped_text_witness :
    (((detect_pest c10req c10env).status = 200 →
      (detect_pest c10req c10env).body
        = Body.pestJson (fallbackRecord (concatParts c10env.modelParts)) ∧
      Json.getField (fallbackRecord (concatParts c10env.modelParts)) "description"
        = some (Json.str (pyStrip (concatParts c10env.modelParts))) ∧
      pyStrip (concatParts c10env.modelParts) ≠ "") ∧
    (pyStrip (concatParts c10env.modelParts) = "" →
      (detect_pest c10req c10env).status = 500)) ∧
    (detect_pest c10req c10env).status = 200 :=
  ⟨fallback_description_is_stripped_text c10req c10env rfl (by decide) rfl
    rfl rfl, rfl⟩

end Krishimitra
